/-
  Verification of the Smart Library System's ownership-scoped resource
  store, audit logger, authentication routes and authorization gate.

  Shallow embedding of the Express/Mongoose server code:
  - `server/models/Book.js` (bookSchema) — field validation and the unique
    index on `isbn`;
  - `server/routes/bookRoutes.js` — GET /, GET /:id, POST /, PUT /:id,
    DELETE /:id handlers;
  - `server/models/ActivityLog.js` — `logActivity`;
  - `server/middleware/auth.js` — `protect`;
  - `server/routes/authRoutes.js` — login and reset-password handlers;
  - `server/models/User.js` — userSchema with the pre-save bcrypt hook.

  The MongoDB store is modelled as explicit state (`DB`, a list of book
  documents plus the activity-log collection).  Mongoose `save()` is
  modelled as: run the schema validators, then enforce the unique index on
  `isbn`, then write.  An infrastructure failure of the audit append
  (`ActivityLog.create` throwing) is modelled by the boolean `auditOk`
  passed to each mutating handler.  Bcrypt and sha256 are abstract
  functions in `CryptoEnv`; JWT verification is abstract in `AuthEnv`.

  A route parameter `:id` either casts to an ObjectId or makes the
  Mongoose query throw a CastError (`error.kind === 'ObjectId'`); the
  `IdParam` type records exactly that distinction.
-/
import Mathlib

namespace SmartLibrary

/-- Action kinds of the activity log (`activityLogSchema.action` enum). -/
inductive Action where
  | ADD
  | EDIT
  | DELETE
  deriving DecidableEq, Repr

/-- A book document (`bookSchema` fields; `id` models `_id`).
`year` is an `Int`, as JS numbers used here are integral. -/
structure Book where
  id : Nat
  user : Nat
  title : String
  author : String
  isbn : String
  year : Int
  deriving DecidableEq, Repr

/-- An activity-log document (`activityLogSchema`); the `details` mixed
payload and timestamp are not needed by any claim and are omitted. -/
structure LogEntry where
  user : Nat
  action : Action
  bookTitle : String
  description : String
  deriving DecidableEq, Repr

/-- The persistent store: the `books` and `activitylogs` collections plus
a fresh-`_id` counter standing for Mongo's ObjectId generation. -/
structure DB where
  books : List Book
  logs : List LogEntry
  nextId : Nat
  deriving DecidableEq, Repr

/-- A JSON request body for the book routes.  Only `title`, `author`,
`isbn`, `year` are ever destructured by the handlers; `user` models a
client-supplied account identifier that a client may include but which
the code never reads. -/
structure Body where
  title : Option String := none
  author : Option String := none
  isbn : Option String := none
  year : Option Int := none
  user : Option Nat := none
  deriving DecidableEq, Repr

/-- An HTTP JSON response `{success, message?, data?}` plus status. -/
structure Resp where
  status : Nat
  success : Bool
  message : String
  data : Option Book := none
  dataList : Option (List Book) := none
  deriving DecidableEq, Repr

/-- JS `String.prototype.trim()`: strip whitespace from both ends,
written on the character list so that it evaluates by reduction. -/
def trimStr (s : String) : String :=
  ⟨((s.data.dropWhile Char.isWhitespace).reverse.dropWhile Char.isWhitespace).reverse⟩

/-- JS `String.prototype.startsWith(p)` on the character list. -/
def startsWithStr (s p : String) : Bool :=
  s.data.take p.data.length == p.data

/-- Helper for `splitOnSpaceStr`: accumulate the current chunk. -/
def splitSpaceAux : List Char → List Char → List String
  | [], acc => [⟨acc.reverse⟩]
  | c :: rest, acc =>
    if c == ' ' then (⟨acc.reverse⟩ : String) :: splitSpaceAux rest []
    else splitSpaceAux rest (c :: acc)

/-- JS `String.prototype.split(' ')`: split on every single space,
keeping empty chunks. -/
def splitOnSpaceStr (s : String) : List String := splitSpaceAux s.data []

/-- JS truthiness of an optional string body field (`!title` is true for a
missing field and for the empty string). -/
def truthyStr : Option String → Bool
  | none => false
  | some s => !(s == "")

/-- JS truthiness of an optional numeric body field (`!year` is true for a
missing field and for 0). -/
def truthyInt : Option Int → Bool
  | none => false
  | some n => !(n == 0)

/-- A `:id` route parameter: either it casts to an ObjectId or the
Mongoose query throws a CastError with `kind === 'ObjectId'`. -/
inductive IdParam where
  | wellFormed (bid : Nat)
  | malformed
  deriving DecidableEq, Repr

/-- Mongoose validators of `bookSchema` on a document about to be saved,
in schema-path order; `curYear` is `new Date().getFullYear()`.  Returns
the messages of the failing paths (`Object.values(error.errors)`). -/
def validationErrors (curYear : Int) (b : Book) : List String :=
  (if b.title == "" then ["Book title is required"]
   else if b.title.length > 200 then ["Title cannot exceed 200 characters"]
   else []) ++
  (if b.author == "" then ["Author name is required"]
   else if b.author.length > 100 then ["Author name cannot exceed 100 characters"]
   else []) ++
  (if b.isbn == "" then ["ISBN number is required"]
   else if b.isbn.length < 10 then ["ISBN must be at least 10 characters"]
   else if b.isbn.length > 17 then ["ISBN cannot exceed 17 characters (including hyphens)"]
   else []) ++
  (if b.year < 1000 then ["Year must be a valid 4-digit year"]
   else if b.year > curYear + 1 then ["Year cannot be in the future"]
   else [])

/-- Mongo semantics of `book.save()` after an in-place edit: update the
single document with the matching `_id`.  Replaces the first list
element whose id matches. -/
def saveReplace (l : List Book) (bid : Nat) (nb : Book) : List Book :=
  match l with
  | [] => []
  | b :: rest => if b.id == bid then nb :: rest else b :: saveReplace rest bid nb

/-- GET /api/books — `Book.find({user}).sort({createdAt:-1})`.  Books are
appended in creation order, so descending creation time is the reverse. -/
def listBooks (db : DB) (uid : Nat) : DB × Resp :=
  let books := (db.books.filter (fun b => b.user == uid)).reverse
  (db, { status := 200, success := true,
         message := "Books retrieved successfully", dataList := some books })

/-- GET /api/books/:id — `Book.findOne({_id, user})`; CastError → 400. -/
def getBook (db : DB) (uid : Nat) (idp : IdParam) : DB × Resp :=
  match idp with
  | .malformed => (db, { status := 400, success := false, message := "Invalid book ID format" })
  | .wellFormed bid =>
    match db.books.find? (fun b => b.id == bid && b.user == uid) with
    | none => (db, { status := 404, success := false, message := "Book not found" })
    | some book => (db, { status := 200, success := true, message := "", data := some book })

/-- The `new Book({user, title: title.trim(), author: author.trim(),
isbn: isbn.trim(), year: parseInt(year, 10)})` constructed by POST
/api/books; `_id` is the store's fresh id. -/
def newBookOf (db : DB) (uid : Nat) (body : Body) : Book :=
  { id := db.nextId, user := uid,
    title := trimStr (body.title.getD ""),
    author := trimStr (body.author.getD ""),
    isbn := trimStr (body.isbn.getD ""),
    year := body.year.getD 0 }

/-- POST /api/books.  Required-field truthiness check, per-user duplicate
ISBN lookup, `newBook.save()` (schema validation, then the global unique
index on `isbn` — duplicate key code 11000), then
`ActivityLog.logActivity` (its failure is caught by the route's generic
handler, which answers 500 although the book was saved). -/
def createBook (curYear : Int) (auditOk : Bool) (db : DB) (uid : Nat) (body : Body) :
    DB × Resp :=
  if !(truthyStr body.title && truthyStr body.author &&
       truthyStr body.isbn && truthyInt body.year) then
    (db, { status := 400, success := false,
           message := "All fields are required (title, author, isbn, year)" })
  else
    let isbn := trimStr (body.isbn.getD "")
    if (db.books.find? (fun b => b.isbn == isbn && b.user == uid)).isSome then
      (db, { status := 400, success := false,
             message := "A book with this ISBN already exists in your library" })
    else
      let newBook : Book := newBookOf db uid body
      let errs := validationErrors curYear newBook
      if !errs.isEmpty then
        (db, { status := 400, success := false, message := String.intercalate ". " errs })
      else if (db.books.find? (fun b => b.isbn == newBook.isbn)).isSome then
        (db, { status := 400, success := false,
               message := "A book with this ISBN already exists" })
      else
        let db1 : DB := { db with books := db.books ++ [newBook], nextId := db.nextId + 1 }
        if auditOk then
          let entry : LogEntry :=
            { user := uid, action := .ADD, bookTitle := newBook.title,
              description := "Added \"" ++ newBook.title ++ "\" by " ++
                newBook.author ++ " to the library" }
          ({ db1 with logs := db1.logs ++ [entry] },
           { status := 201, success := true,
             message := "Book added successfully to your library", data := some newBook })
        else
          (db1, { status := 500, success := false,
                  message := "Failed to add book. Please try again later." })

/-- The truthiness-guarded in-place field updates of PUT /api/books/:id:
`if (title) book.title = title.trim()` and likewise for the other three
fields; `user`, `_id` and unsupplied fields are untouched. -/
def applyBody (body : Body) (book : Book) : Book :=
  let b1 := if truthyStr body.title then { book with title := trimStr (body.title.getD "") } else book
  let b2 := if truthyStr body.author then { b1 with author := trimStr (body.author.getD "") } else b1
  let b3 := if truthyStr body.isbn then { b2 with isbn := trimStr (body.isbn.getD "") } else b2
  if truthyInt body.year then { b3 with year := body.year.getD 0 } else b3

/-- PUT /api/books/:id.  Ownership-scoped `findOne`, truthiness-guarded
in-place field updates, `book.save()` (validation and the unique `isbn`
index; either failure reaches the catch block, which maps only CastError
to 400 and everything else to the generic 500), then the audit append. -/
def updateBook (curYear : Int) (auditOk : Bool) (db : DB) (uid : Nat)
    (idp : IdParam) (body : Body) : DB × Resp :=
  match idp with
  | .malformed => (db, { status := 400, success := false, message := "Invalid book ID format" })
  | .wellFormed bid =>
    match db.books.find? (fun b => b.id == bid && b.user == uid) with
    | none => (db, { status := 404, success := false, message := "Book not found" })
    | some book =>
      let oldTitle := book.title
      let b4 := applyBody body book
      if !(validationErrors curYear b4).isEmpty then
        (db, { status := 500, success := false, message := "Failed to update book" })
      else if (db.books.find? (fun b => b.isbn == b4.isbn && !(b.id == b4.id))).isSome then
        (db, { status := 500, success := false, message := "Failed to update book" })
      else
        let db1 : DB := { db with books := saveReplace db.books bid b4 }
        if auditOk then
          let entry : LogEntry :=
            { user := uid, action := .EDIT, bookTitle := b4.title,
              description := "Updated \"" ++ oldTitle ++ "\" book details" }
          ({ db1 with logs := db1.logs ++ [entry] },
           { status := 200, success := true,
             message := "Book updated successfully", data := some b4 })
        else
          (db1, { status := 500, success := false, message := "Failed to update book" })

/-- DELETE /api/books/:id — `Book.findOneAndDelete({_id, user})`, then the
audit append (whose failure reaches the catch block → 500, after the book
is already gone). -/
def deleteBook (auditOk : Bool) (db : DB) (uid : Nat) (idp : IdParam) : DB × Resp :=
  match idp with
  | .malformed => (db, { status := 400, success := false, message := "Invalid book ID format" })
  | .wellFormed bid =>
    match db.books.find? (fun b => b.id == bid && b.user == uid) with
    | none => (db, { status := 404, success := false, message := "Book not found" })
    | some deletedBook =>
      let db1 : DB := { db with books := db.books.eraseP (fun b => b.id == bid && b.user == uid) }
      if auditOk then
        let entry : LogEntry :=
          { user := uid, action := .DELETE, bookTitle := deletedBook.title,
            description := "Removed \"" ++ deletedBook.title ++ "\" by " ++
              deletedBook.author ++ " from the library" }
        ({ db1 with logs := db1.logs ++ [entry] },
         { status := 200, success := true,
           message := "\"" ++ deletedBook.title ++ "\" has been removed from your library",
           data := some deletedBook })
      else
        (db1, { status := 500, success := false, message := "Failed to delete book" })

/-- A user document (`userSchema`); `password` holds the bcrypt hash
(the pre-save hook hashes any modified plain password before write). -/
structure UserRec where
  id : Nat
  name : String
  email : String
  password : String
  theme : String
  resetPasswordToken : Option String := none
  resetPasswordExpire : Option Int := none
  deriving DecidableEq, Repr

/-- Abstract cryptographic collaborators: `bcryptCompare entered hash`
models `bcrypt.compare`, `bcryptHash` the pre-save `bcrypt.hash` with its
salt at work factor 12, `sha256` the reset-token digest. -/
structure CryptoEnv where
  bcryptCompare : String → String → Bool
  bcryptHash : String → String
  sha256 : String → String

/-- Abstract JWT verification and the user collection seen by the
authorization gate: `verifyToken` is `jwt.verify` (`none` = throws,
covering both bad signature and expiry), `accounts` the ids for which
`User.findById` resolves. -/
structure AuthEnv where
  verifyToken : String → Option Nat
  accounts : List Nat

/-- Outcome of the `protect` middleware: a 401 rejection, or the request
continues with `req.user` set to the resolved account. -/
inductive AuthResult where
  | rejected (status : Nat) (message : String)
  | authorized (userId : Nat)
  deriving DecidableEq, Repr

/-- Token extraction in `protect`: the header must start with "Bearer";
`split(' ')[1]` may be undefined (no space) or the empty string, both of
which fail the `!token` truthiness check. -/
def extractToken : Option String → Option String
  | none => none
  | some s =>
    if startsWithStr s "Bearer" then
      match (splitOnSpaceStr s)[1]? with
      | none => none
      | some "" => none
      | some t => some t
    else none

/-- The `protect` middleware (`server/middleware/auth.js`). -/
def protect (env : AuthEnv) (authHeader : Option String) : AuthResult :=
  match extractToken authHeader with
  | none => .rejected 401 "Not authorized. Please log in to access this resource."
  | some t =>
    match env.verifyToken t with
    | none => .rejected 401 "Token is invalid or expired. Please log in again."
    | some uid =>
      if uid ∈ env.accounts then .authorized uid
      else .rejected 401 "User not found. Please log in again."

/-- POST /api/books behind `router.use(protect)`: the gate's resolved
account id — not anything in the body — is the scoping identity handed to
the store and logger. -/
def handleBooksPost (curYear : Int) (auditOk : Bool) (env : AuthEnv) (db : DB)
    (authHeader : Option String) (body : Body) : DB × Resp :=
  match protect env authHeader with
  | .rejected s m => (db, { status := s, success := false, message := m })
  | .authorized uid => createBook curYear auditOk db uid body

/-- JS `String.prototype.toLowerCase()` as used on email addresses:
character-wise lowercasing. -/
def toLowerStr (s : String) : String := ⟨s.data.map Char.toLower⟩

/-- POST /api/auth/login (`authRoutes`): required-field check, lookup by
lowercased email with the password hash selected, bcrypt comparison.  The
200 response carries token and user, irrelevant to the claims here. -/
def login (env : CryptoEnv) (users : List UserRec) (email password : Option String) : Resp :=
  if !(truthyStr email && truthyStr password) then
    { status := 400, success := false, message := "Please provide email and password" }
  else
    match users.find? (fun u => u.email == toLowerStr (email.getD "")) with
    | none => { status := 401, success := false, message := "Invalid email or password" }
    | some u =>
      if env.bcryptCompare (password.getD "") u.password then
        { status := 200, success := true, message := "" }
      else
        { status := 401, success := false, message := "Invalid email or password" }

/-- The query predicate of POST /api/auth/reset-password/:token:
`{resetPasswordToken: hash, resetPasswordExpire: {$gt: Date.now()}}`. -/
def resetMatch (tokenHash : String) (now : Int) (u : UserRec) : Bool :=
  u.resetPasswordToken == some tokenHash &&
    (match u.resetPasswordExpire with
     | some e => now < e
     | none => false)

/-- Mongo semantics of `user.save()` on the user collection: update the
one document with the matching `_id`. -/
def saveUser (l : List UserRec) (uid : Nat) (nu : UserRec) : List UserRec :=
  match l with
  | [] => []
  | u :: rest => if u.id == uid then nu :: rest else u :: saveUser rest uid nu

/-- POST /api/auth/reset-password/:token (`authRoutes`): password
presence and length checks, sha256 of the presented raw token, lookup of
a matching non-expired stored hash, then a single `user.save()` that both
stores the new bcrypt hash (pre-save hook) and clears the two
reset-token fields. -/
def resetPassword (env : CryptoEnv) (now : Int) (users : List UserRec)
    (rawToken : String) (password : Option String) : List UserRec × Resp :=
  if !truthyStr password then
    (users, { status := 400, success := false, message := "Please provide a new password" })
  else if (password.getD "").length < 6 then
    (users, { status := 400, success := false,
              message := "Password must be at least 6 characters long" })
  else
    let resetTokenHash := env.sha256 rawToken
    match users.find? (resetMatch resetTokenHash now) with
    | none =>
      (users, { status := 400, success := false, message := "Invalid or expired reset token" })
    | some u =>
      let u1 : UserRec :=
        { u with password := env.bcryptHash (password.getD ""),
                 resetPasswordToken := none, resetPasswordExpire := none }
      (saveUser users u.id u1,
       { status := 200, success := true,
         message := "Password reset successful! You can now login with your new password." })

/-! ## Theorems -/

/-- C10: for every GET, PUT or DELETE on /books/:id whose `:id` does not
cast to an ObjectId, the handler answers 400 "Invalid book ID format"
and leaves the store untouched; malformed ids are thus distinguished
from the 404 NotFound used for absent or unowned records. -/
theorem c10_malformed_id_yields_400 (curYear : Int) (auditOk : Bool) (db : DB)
    (uid : Nat) (body : Body) :
    getBook db uid .malformed =
      (db, { status := 400, success := false, message := "Invalid book ID format" }) ∧
    updateBook curYear auditOk db uid .malformed body =
      (db, { status := 400, success := false, message := "Invalid book ID format" }) ∧
    deleteBook auditOk db uid .malformed =
      (db, { status := 400, success := false, message := "Invalid book ID format" }) ∧
    (400 : Nat) ≠ 404 := by
  exact ⟨rfl, rfl, rfl, by decide⟩

/-- C2: a record R owned by account `a` is invisible to any other account
`b`: `get` and `delete` by `b` answer 404 "Book not found", leave the
store unchanged, and the responses coincide with those for an id that
exists nowhere at all. -/
theorem c2_cross_account_not_found (db : DB) (a b : Nat) (r : Book) (auditOk : Bool)
    (hmem : r ∈ db.books) (hown : r.user = a) (hab : a ≠ b)
    (hid : ∀ x ∈ db.books, x.id = r.id → x.user = a) :
    getBook db b (.wellFormed r.id) =
      (db, { status := 404, success := false, message := "Book not found" }) ∧
    deleteBook auditOk db b (.wellFormed r.id) =
      (db, { status := 404, success := false, message := "Book not found" }) ∧
    ∀ fid : Nat, (∀ x ∈ db.books, x.id ≠ fid) →
      getBook db b (.wellFormed fid) =
        (db, { status := 404, success := false, message := "Book not found" }) ∧
      deleteBook auditOk db b (.wellFormed fid) =
        (db, { status := 404, success := false, message := "Book not found" }) := by
  have hnone : db.books.find? (fun x => x.id == r.id && x.user == b) = none := by
    rw [List.find?_eq_none]
    intro x hx
    simp only [Bool.and_eq_true, beq_iff_eq, not_and]
    intro hxe
    have := hid x hx hxe
    omega
  refine ⟨?_, ?_, ?_⟩
  · simp [getBook, hnone]
  · simp [deleteBook, hnone]
  · intro fid hfid
    have hfnone : db.books.find? (fun x => x.id == fid && x.user == b) = none := by
      rw [List.find?_eq_none]
      intro x hx
      simp only [Bool.and_eq_true, beq_iff_eq, not_and]
      intro hxe
      exact absurd hxe (hfid x hx)
    exact ⟨by simp [getBook, hfnone], by simp [deleteBook, hfnone]⟩

theorem c2_cross_account_not_found_witness :
    let r : Book := { id := 0, user := 1, title := "Dune", author := "Herbert",
                      isbn := "9780441013593", year := 1965 }
    let db : DB := { books := [r], logs := [], nextId := 1 }
    getBook db 2 (.wellFormed 0) =
      (db, { status := 404, success := false, message := "Book not found" }) ∧
    deleteBook true db 2 (.wellFormed 0) =
      (db, { status := 404, success := false, message := "Book not found" }) := by
  intro r db
  have h := c2_cross_account_not_found db 1 2 r true (by simp [db, r])
    (by decide) (by decide) (by intro x hx _; simp [db, r] at hx; simp [hx, r])
  exact ⟨h.1, h.2.1⟩

/-- C7: a failed login answers with the identical response — status 401,
`success: false`, message "Invalid email or password" — whether no
account with the given email exists or the account exists and the bcrypt
comparison fails. -/
theorem c7_login_failure_indistinguishable (env : CryptoEnv) (users : List UserRec)
    (email password : Option String)
    (he : truthyStr email = true) (hp : truthyStr password = true) :
    (users.find? (fun u => u.email == toLowerStr (email.getD "")) = none →
      login env users email password =
        { status := 401, success := false, message := "Invalid email or password" }) ∧
    (∀ u, users.find? (fun u => u.email == toLowerStr (email.getD "")) = some u →
      env.bcryptCompare (password.getD "") u.password = false →
      login env users email password =
        { status := 401, success := false, message := "Invalid email or password" }) := by
  constructor
  · intro hn
    simp [login, he, hp, hn]
  · intro u hu hc
    simp [login, he, hp, hu, hc]

theorem c7_login_failure_indistinguishable_witness :
    let envW : CryptoEnv :=
      { bcryptCompare := fun _ _ => false, bcryptHash := fun s => s, sha256 := fun s => s }
    let uW : UserRec :=
      { id := 1, name := "Alice", email := "alice@x.com", password := "hash", theme := "dark" }
    login envW [uW] (some "nobody@x.com") (some "pw") =
      { status := 401, success := false, message := "Invalid email or password" } ∧
    login envW [uW] (some "Alice@x.com") (some "wrong") =
      { status := 401, success := false, message := "Invalid email or password" } := by
  intro envW uW
  constructor
  · exact (c7_login_failure_indistinguishable envW [uW] (some "nobody@x.com") (some "pw")
      (by decide) (by decide)).1 (by decide)
  · exact (c7_login_failure_indistinguishable envW [uW] (some "Alice@x.com") (some "wrong")
      (by decide) (by decide)).2 uW (by decide) rfl

/-- C1 (counterexample): the Book schema's global unique index on `isbn`
makes create by account 2 fail with 400 even though only account 1 owns
that ISBN, refuting "ISBN uniqueness is enforced per account, never
globally". -/
theorem c1_per_account_isbn_counterexample :
    let owner : Book := { id := 0, user := 1, title := "Dune", author := "Herbert",
                          isbn := "9780441013593", year := 1965 }
    let db : DB := { books := [owner], logs := [], nextId := 1 }
    let body : Body := { title := some "Other", author := some "X",
                         isbn := some "9780441013593", year := some 2001 }
    (1 : Nat) ≠ 2 ∧ owner.user = 1 ∧
    (∀ x ∈ db.books, x.user ≠ 2) ∧
    (createBook 2025 true db 2 body).2 =
      { status := 400, success := false,
        message := "A book with this ISBN already exists" } ∧
    (createBook 2025 true db 2 body).1 = db := by
  intro owner db body
  exact ⟨by decide, rfl, by decide, by decide, by decide⟩

/-- C1 (amended): a second create by the same account with an already
held ISBN fails with the per-account duplicate message, but a create by
a *different* account with that ISBN also fails — the schema's unique
index on `isbn` is global, so ISBN uniqueness is enforced across
accounts, not merely per account. -/
theorem c1_isbn_unique_per_account_and_globally
    (curYear : Int) (auditOk : Bool) (db : DB) (a b : Nat) (body : Body) (s : Book)
    (ht : truthyStr body.title = true) (hau : truthyStr body.author = true)
    (hi : truthyStr body.isbn = true) (hy : truthyInt body.year = true)
    (hs : s ∈ db.books) (hisbn : s.isbn = trimStr (body.isbn.getD ""))
    (hsu : s.user = a) :
    createBook curYear auditOk db a body =
      (db, { status := 400, success := false,
             message := "A book with this ISBN already exists in your library" }) ∧
    (a ≠ b → (∀ x ∈ db.books, x.isbn = trimStr (body.isbn.getD "") → x.user = a) →
      validationErrors curYear (newBookOf db b body) = [] →
      createBook curYear auditOk db b body =
        (db, { status := 400, success := false,
               message := "A book with this ISBN already exists" })) := by
  constructor
  · have hfind : (db.books.find?
        (fun x => x.isbn == trimStr (body.isbn.getD "") && x.user == a)).isSome :=
      List.find?_isSome.2 ⟨s, hs, by simp [hisbn, hsu]⟩
    simp [createBook, ht, hau, hi, hy, hfind]
  · intro hab hown hval
    have h1 : db.books.find?
        (fun x => x.isbn == trimStr (body.isbn.getD "") && x.user == b) = none := by
      rw [List.find?_eq_none]
      intro x hx
      simp only [Bool.and_eq_true, beq_iff_eq, not_and]
      intro hxi
      have := hown x hx hxi
      omega
    have h2 : (db.books.find? (fun x => x.isbn == trimStr (body.isbn.getD ""))).isSome :=
      List.find?_isSome.2 ⟨s, hs, by simp [hisbn]⟩
    simp only [newBookOf] at hval
    simp [createBook, newBookOf, ht, hau, hi, hy, h1, hval, h2]

theorem c1_isbn_unique_per_account_and_globally_witness :
    let owner : Book := { id := 0, user := 1, title := "Dune", author := "Herbert",
                          isbn := "9780441013593", year := 1965 }
    let db : DB := { books := [owner], logs := [], nextId := 1 }
    let body : Body := { title := some "Other", author := some "X",
                         isbn := some "9780441013593", year := some 2001 }
    createBook 2025 true db 1 body =
      (db, { status := 400, success := false,
             message := "A book with this ISBN already exists in your library" }) ∧
    createBook 2025 true db 2 body =
      (db, { status := 400, success := false,
             message := "A book with this ISBN already exists" }) := by
  intro owner db body
  have h := c1_isbn_unique_per_account_and_globally 2025 true db 1 2 body owner
    (by decide) (by decide) (by decide) (by decide)
    (by simp [db]) (by decide) rfl
  exact ⟨h.1, h.2 (by decide)
    (by intro x hx hxi; simp [db] at hx; simp [hx, owner]) (by decide)⟩

/-- C3 (counterexample): with a valid create whose audit append fails,
the book is persisted yet the caller receives a 500 failure response —
the mutation is not reported as successful. -/
theorem c3_audit_failure_counterexample :
    let db0 : DB := { books := [], logs := [], nextId := 0 }
    let body : Body := { title := some "Dune", author := some "Herbert",
                         isbn := some "9780441013593", year := some 1965 }
    (createBook 2025 false db0 1 body).1.books ≠ [] ∧
    (createBook 2025 false db0 1 body).2.success = false ∧
    (createBook 2025 false db0 1 body).2.status = 500 := by
  intro db0 body
  exact ⟨by decide, by decide, by decide⟩

/-- C3 (amended): when the book mutation succeeds but the audit-log
append fails, the route's catch handler reports the operation as FAILED
(500 with a generic message) even though the mutation persists in the
store; the audit error is only console-logged.  Holds for create, update
and delete. -/
theorem c3_audit_failure_reported_as_error
    (curYear : Int) (db : DB) (uid : Nat) (body : Body) (bid : Nat) (book : Book) :
    ((truthyStr body.title && truthyStr body.author &&
      truthyStr body.isbn && truthyInt body.year) = true →
     db.books.find? (fun x => x.isbn == trimStr (body.isbn.getD "") && x.user == uid) = none →
     validationErrors curYear (newBookOf db uid body) = [] →
     db.books.find? (fun x => x.isbn == trimStr (body.isbn.getD "")) = none →
     createBook curYear false db uid body =
       ({ db with books := db.books ++ [newBookOf db uid body], nextId := db.nextId + 1 },
        { status := 500, success := false,
          message := "Failed to add book. Please try again later." })) ∧
    (db.books.find? (fun b => b.id == bid && b.user == uid) = some book →
     validationErrors curYear (applyBody body book) = [] →
     db.books.find?
       (fun b => b.isbn == (applyBody body book).isbn && !(b.id == (applyBody body book).id)) =
         none →
     updateBook curYear false db uid (.wellFormed bid) body =
       ({ db with books := saveReplace db.books bid (applyBody body book) },
        { status := 500, success := false, message := "Failed to update book" })) ∧
    (db.books.find? (fun b => b.id == bid && b.user == uid) = some book →
     deleteBook false db uid (.wellFormed bid) =
       ({ db with books := db.books.eraseP (fun b => b.id == bid && b.user == uid) },
        { status := 500, success := false, message := "Failed to delete book" })) := by
  refine ⟨?_, ?_, ?_⟩
  · intro hreq hdupUser hval hdupGlobal
    simp only [newBookOf] at hval
    simp [createBook, newBookOf, hreq, hdupUser, hval, hdupGlobal]
  · intro hfind hval hdup
    simp only [applyBody] at hval hdup
    simp [updateBook, applyBody, hfind, hval, hdup]
  · intro hfind
    simp [deleteBook, hfind]

theorem c3_audit_failure_reported_as_error_witness :
    let db0 : DB := { books := [], logs := [], nextId := 0 }
    let body : Body := { title := some "Dune", author := some "Herbert",
                         isbn := some "9780441013593", year := some 1965 }
    createBook 2025 false db0 1 body =
      ({ db0 with books := db0.books ++ [newBookOf db0 1 body], nextId := db0.nextId + 1 },
       { status := 500, success := false,
         message := "Failed to add book. Please try again later." }) := by
  intro db0 body
  exact (c3_audit_failure_reported_as_error 2025 db0 1 body 0
    { id := 0, user := 0, title := "", author := "", isbn := "", year := 0 }).1
    (by decide) (by decide) (by decide) (by decide)

/-- C5 (counterexample): an update supplying an ISBN shorter than 10
characters on an owned record is answered with 500, not with a 400
ValidationError. -/
theorem c5_update_validation_counterexample :
    let bk : Book := { id := 0, user := 1, title := "Dune", author := "Herbert",
                       isbn := "9780441013593", year := 1965 }
    let db : DB := { books := [bk], logs := [], nextId := 1 }
    (updateBook 2025 true db 1 (.wellFormed 0) { isbn := some "123" }).2.status = 500 ∧
    (updateBook 2025 true db 1 (.wellFormed 0) { isbn := some "123" }).2.status ≠ 400 ∧
    (updateBook 2025 true db 1 (.wellFormed 0) { isbn := some "123" }).1 = db := by
  intro bk db
  exact ⟨by decide, by decide, by decide⟩

/-- C5 (amended): an update whose supplied values violate a schema
validation constraint is rejected and the record stays unchanged, but it
is reported as the generic 500 "Failed to update book": the PUT catch
handler maps only ObjectId cast errors to 400, so a mongoose
ValidationError never becomes a 400 response. -/
theorem c5_update_validation_gives_500
    (curYear : Int) (auditOk : Bool) (db : DB) (uid bid : Nat) (body : Body) (book : Book)
    (hfind : db.books.find? (fun b => b.id == bid && b.user == uid) = some book)
    (hval : validationErrors curYear (applyBody body book) ≠ []) :
    updateBook curYear auditOk db uid (.wellFormed bid) body =
      (db, { status := 500, success := false, message := "Failed to update book" }) := by
  cases hl : validationErrors curYear (applyBody body book) with
  | nil => exact absurd hl hval
  | cons a t =>
    simp only [applyBody] at hl
    simp [updateBook, applyBody, hfind, hl]

theorem c5_update_validation_gives_500_witness :
    let bk : Book := { id := 0, user := 1, title := "Dune", author := "Herbert",
                       isbn := "9780441013593", year := 1965 }
    let db : DB := { books := [bk], logs := [], nextId := 1 }
    updateBook 2025 true db 1 (.wellFormed 0) { isbn := some "123" } =
      (db, { status := 500, success := false, message := "Failed to update book" }) := by
  intro bk db
  exact c5_update_validation_gives_500 2025 true db 1 0 { isbn := some "123" } bk
    (by decide) (by decide)

/-- C4: a create, update or delete that is answered as successful (201
resp. 200) appends exactly one activity-log entry, whose action kind is
ADD, EDIT resp. DELETE and whose owning account is the acting account;
every non-success outcome of those handlers, and every read (`GET /`,
`GET /:id`), leaves the log untouched. -/
theorem c4_mutations_log_exactly_one
    (curYear : Int) (auditOk : Bool) (db : DB) (uid : Nat) (body : Body) (idp : IdParam) :
    ((createBook curYear auditOk db uid body).2.status = 201 →
      ∃ e : LogEntry, (createBook curYear auditOk db uid body).1.logs = db.logs ++ [e] ∧
        e.user = uid ∧ e.action = .ADD) ∧
    ((createBook curYear auditOk db uid body).2.status ≠ 201 →
      (createBook curYear auditOk db uid body).1.logs = db.logs) ∧
    ((updateBook curYear auditOk db uid idp body).2.status = 200 →
      ∃ e : LogEntry, (updateBook curYear auditOk db uid idp body).1.logs = db.logs ++ [e] ∧
        e.user = uid ∧ e.action = .EDIT) ∧
    ((updateBook curYear auditOk db uid idp body).2.status ≠ 200 →
      (updateBook curYear auditOk db uid idp body).1.logs = db.logs) ∧
    ((deleteBook auditOk db uid idp).2.status = 200 →
      ∃ e : LogEntry, (deleteBook auditOk db uid idp).1.logs = db.logs ++ [e] ∧
        e.user = uid ∧ e.action = .DELETE) ∧
    ((deleteBook auditOk db uid idp).2.status ≠ 200 →
      (deleteBook auditOk db uid idp).1.logs = db.logs) ∧
    (getBook db uid idp).1 = db ∧
    (listBooks db uid).1 = db := by
  refine ⟨?_, ?_, ?_, ?_, ?_, ?_, ?_, rfl⟩
  · simp only [createBook]
    split
    · simp
    · split
      · simp
      · split
        · simp
        · split
          · simp
          · split
            · intro _
              exact ⟨_, rfl, rfl, rfl⟩
            · simp
  · simp only [createBook]
    split
    · simp
    · split
      · simp
      · split
        · simp
        · split
          · simp
          · split
            · simp
            · simp
  · simp only [updateBook]
    split
    · simp
    · split
      · simp
      · split
        · simp
        · split
          · simp
          · split
            · intro _
              exact ⟨_, rfl, rfl, rfl⟩
            · simp
  · simp only [updateBook]
    split
    · simp
    · split
      · simp
      · split
        · simp
        · split
          · simp
          · split
            · simp
            · simp
  · simp only [deleteBook]
    split
    · simp
    · split
      · simp
      · split
        · intro _
          exact ⟨_, rfl, rfl, rfl⟩
        · simp
  · simp only [deleteBook]
    split
    · simp
    · split
      · simp
      · split
        · simp
        · simp
  · simp only [getBook]
    split
    · rfl
    · split <;> rfl

theorem c4_mutations_log_exactly_one_witness :
    let dbW : DB := { books := [], logs := [], nextId := 0 }
    let bodyW : Body := { title := some "Dune", author := some "Herbert",
                          isbn := some "9780441013593", year := some 1965 }
    ∃ e : LogEntry, (createBook 2025 true dbW 1 bodyW).1.logs = dbW.logs ++ [e] ∧
      e.user = 1 ∧ e.action = .ADD := by
  intro dbW bodyW
  exact (c4_mutations_log_exactly_one 2025 true dbW 1 bodyW (.wellFormed 0)).1 (by decide)

/-- C6: the `protect` gate rejects with 401 exactly as specified — no
bearer token ("Not authorized…"), token present but verification throws
("Token is invalid or expired…"), token valid but account unresolvable
("User not found…") — and any authorized request carries the account id
resolved from the token (which must verify and resolve); downstream, the
scoping identity is that id and never a client-supplied one: the outcome
of a protected create is invariant under the body's `user` field. -/
theorem c6_authorization_gate (env : AuthEnv) (header : Option String) :
    (extractToken header = none →
      protect env header =
        .rejected 401 "Not authorized. Please log in to access this resource.") ∧
    (∀ t, extractToken header = some t → env.verifyToken t = none →
      protect env header =
        .rejected 401 "Token is invalid or expired. Please log in again.") ∧
    (∀ t uid, extractToken header = some t → env.verifyToken t = some uid →
      uid ∉ env.accounts →
      protect env header = .rejected 401 "User not found. Please log in again.") ∧
    (∀ uid, protect env header = .authorized uid →
      ∃ t, extractToken header = some t ∧ env.verifyToken t = some uid ∧
        uid ∈ env.accounts) ∧
    (∀ curYear auditOk db body v,
      handleBooksPost curYear auditOk env db header { body with user := v } =
        handleBooksPost curYear auditOk env db header body) := by
  refine ⟨?_, ?_, ?_, ?_, ?_⟩
  · intro h
    simp [protect, h]
  · intro t ht hv
    simp [protect, ht, hv]
  · intro t uid ht hv hn
    simp [protect, ht, hv, hn]
  · intro uid h
    cases he : extractToken header with
    | none => simp [protect, he] at h
    | some t =>
      cases hv : env.verifyToken t with
      | none => simp [protect, he, hv] at h
      | some u2 =>
        by_cases hm : u2 ∈ env.accounts
        · have h2 : u2 = uid := by
            simp [protect, he, hv, hm] at h
            exact h
          subst h2
          exact ⟨t, rfl, hv, hm⟩
        · simp [protect, he, hv, hm] at h
  · intro curYear auditOk db body v
    simp only [handleBooksPost]
    cases hp : protect env header with
    | rejected s m => rfl
    | authorized uid => rfl

theorem c6_authorization_gate_witness :
    let env0 : AuthEnv :=
      { verifyToken := fun t => if t == "tok1" then some 1 else none, accounts := [1] }
    let db0 : DB := { books := [], logs := [], nextId := 0 }
    protect env0 none =
      .rejected 401 "Not authorized. Please log in to access this resource." ∧
    protect env0 (some "Bearer bad") =
      .rejected 401 "Token is invalid or expired. Please log in again." ∧
    protect env0 (some "Bearer tok2") =
      .rejected 401 "Token is invalid or expired. Please log in again." ∧
    handleBooksPost 2025 true env0 db0 (some "Bearer tok1")
        { title := some "T", user := some 99 } =
      handleBooksPost 2025 true env0 db0 (some "Bearer tok1") { title := some "T" } := by
  intro env0 db0
  refine ⟨?_, ?_, ?_, ?_⟩
  · exact (c6_authorization_gate env0 none).1 rfl
  · exact (c6_authorization_gate env0 (some "Bearer bad")).2.1 "bad" (by decide) (by decide)
  · exact (c6_authorization_gate env0 (some "Bearer tok2")).2.1 "tok2" (by decide) (by decide)
  · exact (c6_authorization_gate env0 (some "Bearer tok1")).2.2.2.2 2025 true db0
      { title := some "T" } (some 99)

/-- The PUT field-update step changes nothing but the four supplied
fields: `user` and `_id` survive, an unsupplied (falsy) field keeps its
prior value, a supplied one receives its trimmed/parsed new value. -/
theorem applyBody_fields (body : Body) (book : Book) :
    (applyBody body book).user = book.user ∧
    (applyBody body book).id = book.id ∧
    (truthyStr body.title = false → (applyBody body book).title = book.title) ∧
    (truthyStr body.author = false → (applyBody body book).author = book.author) ∧
    (truthyStr body.isbn = false → (applyBody body book).isbn = book.isbn) ∧
    (truthyInt body.year = false → (applyBody body book).year = book.year) ∧
    (truthyStr body.title = true →
      (applyBody body book).title = trimStr (body.title.getD "")) ∧
    (truthyStr body.author = true →
      (applyBody body book).author = trimStr (body.author.getD "")) ∧
    (truthyStr body.isbn = true →
      (applyBody body book).isbn = trimStr (body.isbn.getD "")) ∧
    (truthyInt body.year = true → (applyBody body book).year = body.year.getD 0) := by
  by_cases h1 : truthyStr body.title <;> by_cases h2 : truthyStr body.author <;>
    by_cases h3 : truthyStr body.isbn <;> by_cases h4 : truthyInt body.year <;>
    simp [applyBody, h1, h2, h3, h4]

/-- Replacing a document by id with one carrying the same id and owner
leaves the (id, owner) column of the collection unchanged. -/
theorem saveReplace_map_id_user (l : List Book) (bid : Nat) (nb : Book)
    (h : ∀ x ∈ l, x.id = bid → nb.id = x.id ∧ nb.user = x.user) :
    (saveReplace l bid nb).map (fun b => (b.id, b.user)) =
      l.map (fun b => (b.id, b.user)) := by
  induction l with
  | nil => rfl
  | cons b rest ih =>
    simp only [saveReplace]
    by_cases hb : b.id = bid
    · rw [if_pos (by simp [hb])]
      have hx := h b (by simp) hb
      simp [hx.1, hx.2]
    · rw [if_neg (by simp [hb])]
      simp only [List.map_cons]
      rw [ih (fun x hx hxi => h x (by simp [hx]) hxi)]

/-- C9: an update on a record owned by the acting account never changes
the (id, owner) column of the store, and on success replaces exactly the
found record by its field-wise update: unsupplied fields keep their
prior values, supplied ones get their trimmed/parsed values, and the
owning account identity is preserved. -/
theorem c9_update_frame
    (curYear : Int) (auditOk : Bool) (db : DB) (uid bid : Nat) (body : Body) (book : Book)
    (hfind : db.books.find? (fun b => b.id == bid && b.user == uid) = some book)
    (hidu : ∀ x ∈ db.books, x.id = bid → x = book) :
    ((updateBook curYear auditOk db uid (.wellFormed bid) body).1.books.map
        (fun b => (b.id, b.user)) =
      db.books.map (fun b => (b.id, b.user))) ∧
    ((updateBook curYear auditOk db uid (.wellFormed bid) body).2.status = 200 →
      (updateBook curYear auditOk db uid (.wellFormed bid) body).1.books =
        saveReplace db.books bid (applyBody body book) ∧
      ((applyBody body book).user = book.user ∧
       (applyBody body book).id = book.id ∧
       (truthyStr body.title = false → (applyBody body book).title = book.title) ∧
       (truthyStr body.author = false → (applyBody body book).author = book.author) ∧
       (truthyStr body.isbn = false → (applyBody body book).isbn = book.isbn) ∧
       (truthyInt body.year = false → (applyBody body book).year = book.year) ∧
       (truthyStr body.title = true →
         (applyBody body book).title = trimStr (body.title.getD "")) ∧
       (truthyStr body.author = true →
         (applyBody body book).author = trimStr (body.author.getD "")) ∧
       (truthyStr body.isbn = true →
         (applyBody body book).isbn = trimStr (body.isbn.getD "")) ∧
       (truthyInt body.year = true → (applyBody body book).year = body.year.getD 0))) := by
  have hap := applyBody_fields body book
  have hmap := saveReplace_map_id_user db.books bid (applyBody body book)
    (fun x hx hxi => by rw [hidu x hx hxi]; exact ⟨hap.2.1, hap.1⟩)
  constructor
  · simp only [updateBook, hfind]
    split
    · rfl
    · split
      · rfl
      · split
        · simpa using hmap
        · simpa using hmap
  · simp only [updateBook, hfind]
    split
    · simp
    · split
      · simp
      · split
        · intro _
          exact ⟨rfl, hap⟩
        · simp

theorem c9_update_frame_witness :
    let bkW : Book := { id := 0, user := 1, title := "Dune", author := "Herbert",
                        isbn := "9780441013593", year := 1965 }
    let dbW : DB := { books := [bkW], logs := [], nextId := 1 }
    let bodyW : Body := { title := some " Dune II " }
    (updateBook 2025 true dbW 1 (.wellFormed 0) bodyW).1.books =
      saveReplace dbW.books 0 (applyBody bodyW bkW) ∧
    (applyBody bodyW bkW).user = bkW.user := by
  intro bkW dbW bodyW
  have h := (c9_update_frame 2025 true dbW 1 0 bodyW bkW (by decide)
    (by intro x hx _; simpa [dbW] using hx)).2 (by decide)
  exact ⟨h.1, h.2.1⟩

/-- Searching a list whose prefix has no match finds the first matching
element after the prefix. -/
theorem find?_append_cons {α : Type} (p : α → Bool) (l1 l2 : List α) (u : α)
    (h1 : ∀ x ∈ l1, p x = false) (hu : p u = true) :
    (l1 ++ u :: l2).find? p = some u := by
  induction l1 with
  | nil =>
    simp only [List.nil_append]
    exact List.find?_cons_of_pos l2 hu
  | cons a t ih =>
    have ha := h1 a (by simp)
    simp only [List.cons_append]
    rw [List.find?_cons_of_neg _ (by simp [ha])]
    exact ih (fun x hx => h1 x (by simp [hx]))

/-- Saving a user document whose id does not occur in the list prefix
replaces exactly that document. -/
theorem saveUser_append (l1 l2 : List UserRec) (u nu : UserRec)
    (h1 : ∀ x ∈ l1, x.id ≠ u.id) :
    saveUser (l1 ++ u :: l2) u.id nu = l1 ++ nu :: l2 := by
  induction l1 with
  | nil => simp [saveUser]
  | cons a t ih =>
    have ha : (a.id == u.id) = false := by simp [h1 a (by simp)]
    simp only [List.cons_append, saveUser, ha, Bool.false_eq_true, if_false]
    exact congrArg (a :: .) (ih (fun x hx => h1 x (by simp [hx])))

/-- C8: a successful reset-password consume replaces the account's
password hash and clears both reset-token fields in the one `save`, so
consuming the same raw token again fails with "Invalid or expired reset
token"; a token whose stored expiry is not in the future is rejected the
same way. -/
theorem c8_reset_token_single_use
    (env : CryptoEnv) (now now2 : Int) (l1 l2 : List UserRec) (u : UserRec)
    (raw : String) (pw pw2 : Option String)
    (hpw : truthyStr pw = true) (hlen : ¬((pw.getD "").length < 6))
    (hpw2 : truthyStr pw2 = true) (hlen2 : ¬((pw2.getD "").length < 6))
    (htok : u.resetPasswordToken = some (env.sha256 raw))
    (hexp : ∃ e, u.resetPasswordExpire = some e ∧ now < e)
    (hid1 : ∀ x ∈ l1, x.id ≠ u.id)
    (hoth : ∀ x, x ∈ l1 ∨ x ∈ l2 → x.resetPasswordToken ≠ some (env.sha256 raw)) :
    let u1 : UserRec := { u with password := env.bcryptHash (pw.getD ""),
                                 resetPasswordToken := none, resetPasswordExpire := none }
    resetPassword env now (l1 ++ u :: l2) raw pw =
      (l1 ++ u1 :: l2,
       { status := 200, success := true,
         message := "Password reset successful! You can now login with your new password." }) ∧
    resetPassword env now2 (l1 ++ u1 :: l2) raw pw2 =
      (l1 ++ u1 :: l2,
       { status := 400, success := false, message := "Invalid or expired reset token" }) ∧
    (∀ users2 : List UserRec,
      (∀ x ∈ users2, x.resetPasswordToken = some (env.sha256 raw) →
        ∃ e, x.resetPasswordExpire = some e ∧ e ≤ now) →
      resetPassword env now users2 raw pw =
        (users2,
         { status := 400, success := false, message := "Invalid or expired reset token" })) := by
  intro u1
  have hm : resetMatch (env.sha256 raw) now u = true := by
    obtain ⟨e, he, hlt⟩ := hexp
    simp [resetMatch, htok, he, hlt]
  have hl1 : ∀ x ∈ l1, resetMatch (env.sha256 raw) now x = false := by
    intro x hx
    have hne : (x.resetPasswordToken == some (env.sha256 raw)) = false := by
      simpa using hoth x (Or.inl hx)
    simp [resetMatch, hne]
  have hfind := find?_append_cons (resetMatch (env.sha256 raw) now) l1 l2 u hl1 hm
  have hsave := saveUser_append l1 l2 u u1 hid1
  refine ⟨?_, ?_, ?_⟩
  · simp [resetPassword, hpw, hlen, hfind, hsave]
  · have hnone : (l1 ++ u1 :: l2).find? (resetMatch (env.sha256 raw) now2) = none := by
      rw [List.find?_eq_none]
      intro x hx
      rcases List.mem_append.1 hx with hx1 | hx2
      · have hne : (x.resetPasswordToken == some (env.sha256 raw)) = false := by
          simpa using hoth x (Or.inl hx1)
        simp [resetMatch, hne]
      · rcases List.mem_cons.1 hx2 with hx3 | hx4
        · subst hx3
          simp [resetMatch, u1]
        · have hne : (x.resetPasswordToken == some (env.sha256 raw)) = false := by
            simpa using hoth x (Or.inr hx4)
          simp [resetMatch, hne]
    simp [resetPassword, hpw2, hlen2, hnone]
  · intro users2 hall
    have hnone : users2.find? (resetMatch (env.sha256 raw) now) = none := by
      rw [List.find?_eq_none]
      intro x hx
      by_cases htk : x.resetPasswordToken = some (env.sha256 raw)
      · obtain ⟨e, he, hle⟩ := hall x hx htk
        simp [resetMatch, htk, he]
        omega
      · have hne : (x.resetPasswordToken == some (env.sha256 raw)) = false := by
          simpa using htk
        simp [resetMatch, hne]
    simp [resetPassword, hpw, hlen, hnone]

theorem c8_reset_token_single_use_witness :
    let envW : CryptoEnv :=
      { bcryptCompare := fun _ _ => false, bcryptHash := fun s => s, sha256 := fun s => s }
    let uW : UserRec := { id := 1, name := "A", email := "a@x.com", password := "old",
                          theme := "dark", resetPasswordToken := some "tok",
                          resetPasswordExpire := some 100 }
    let u1W : UserRec := { uW with password := "newpass",
                                   resetPasswordToken := none, resetPasswordExpire := none }
    resetPassword envW 0 ([] ++ uW :: []) "tok" (some "newpass") =
      ([] ++ u1W :: [],
       { status := 200, success := true,
         message := "Password reset successful! You can now login with your new password." }) ∧
    resetPassword envW 0 ([] ++ u1W :: []) "tok" (some "npass22") =
      ([] ++ u1W :: [],
       { status := 400, success := false, message := "Invalid or expired reset token" }) := by
  intro envW uW u1W
  have h := c8_reset_token_single_use envW 0 0 [] [] uW "tok" (some "newpass") (some "npass22")
    (by decide) (by decide) (by decide) (by decide) rfl ⟨100, rfl, by decide⟩
    (by intro x hx; simp at hx) (by intro x hx; rcases hx with h2 | h2 <;> simp at h2)
  exact ⟨h.1, h.2.1⟩

end SmartLibrary
